import Mathlib

/-
Verification of the decision-maker robot simulation core.

Shallow embedding of the Python sources:
  core/state.py, core/actions.py, core/constraints.py, core/simulator.py,
  solutions/solution_scoring.py, solutions/solution_decision.py.

Conventions of the embedding:
  - Python ints are Int; Python floats that only carry scores or distances
    are Rat (every literal appearing in the code is exactly representable).
  - Python operations that can raise (dict key access, list indexing) are
    modelled with Option: a none result corresponds to an uncaught
    exception.  Functions that cannot raise are total Lean functions.
  - Mutation of the dataclass RobotState is modelled by explicit state
    passing: each effect function returns the updated state together with
    the ActionResult it constructs.
-/

namespace Robot

/-- Embeds core/state.py, class RobotState (dataclass with defaults). -/
structure RobotState where
  battery : Int
  user_urgency : Int
  current_task : String := "idle"
  distance_to_user : Rat := 5
  distance_to_charger : Rat := 10
  time_pressure : Bool := false
  time_step : Int := 0
deriving DecidableEq, Repr

/-- Embeds core/state.py, class ActionResult (dataclass with defaults). -/
structure ActionResult where
  success : Bool
  message : String
  battery_change : Int := 0
  urgency_change : Int := 0
  task_change : String := ""
deriving DecidableEq, Repr

/-- Embeds core/actions.py, enum Action. -/
inductive Action where
  | HELP_USER
  | RECHARGE
  | WAIT
  | CALL_FOR_HELP
deriving DecidableEq, Repr

/-- The order in which Python enumerates the Action enum members
(list(Action) in choose_by_scoring): declaration order. -/
def allActions : List Action :=
  [Action.HELP_USER, Action.RECHARGE, Action.WAIT, Action.CALL_FOR_HELP]

/-- Embeds core/state.py, RobotState.is_battery_critical. -/
def RobotState.is_battery_critical (s : RobotState) : Bool :=
  decide (s.battery < 20)

/-- Embeds core/state.py, RobotState.is_battery_depleted. -/
def RobotState.is_battery_depleted (s : RobotState) : Bool :=
  decide (s.battery ≤ 0)

/-- Embeds core/state.py, RobotState.has_urgent_user. -/
def RobotState.has_urgent_user (s : RobotState) : Bool :=
  decide (2 ≤ s.user_urgency)

/-- Embeds core/state.py, RobotState.can_help_safely. -/
def RobotState.can_help_safely (s : RobotState) : Bool :=
  decide (30 < s.battery) && !s.is_battery_depleted

/-- The per-action property dictionary entries of core/actions.py,
ACTION_PROPERTIES.  A key absent from the Python dict for a given action is
modelled as none; accessing it with [] raises (none), accessing with .get
falls back on the supplied default. -/
structure ActionProps where
  battery_cost : Option Int := none
  battery_gain : Option Int := none
  time_cost : Option Int := none
  urgency_reduction : Option Int := none
  urgency_change : Option Int := none
  description : Option String := none
  requires_battery : Option Int := none
  ends_scenario : Option Bool := none
deriving DecidableEq, Repr

/-- Embeds core/actions.py, ACTION_PROPERTIES. -/
def ACTION_PROPERTIES : Action → ActionProps
  | Action.HELP_USER =>
      { battery_cost := some 15, time_cost := some 1,
        urgency_reduction := some 1,
        description := some "Assist the user with their need",
        requires_battery := some 10 }
  | Action.RECHARGE =>
      { battery_gain := some 50, time_cost := some 2,
        urgency_change := some 1,
        description := some "Go to charging station and recharge",
        requires_battery := some 0 }
  | Action.WAIT =>
      { battery_cost := some 2, time_cost := some 1,
        urgency_change := some 1,
        description := some "Do nothing, observe situation",
        requires_battery := some 0 }
  | Action.CALL_FOR_HELP =>
      { battery_cost := some 5, time_cost := some 1,
        description := some "Request human assistance (gives up task)",
        requires_battery := some 0, ends_scenario := some true }

/-- Embeds core/actions.py, get_battery_cost: uses dict .get with default 0,
so it is total. -/
def get_battery_cost (action : Action) : Int :=
  (ACTION_PROPERTIES action).battery_cost.getD 0
    - (ACTION_PROPERTIES action).battery_gain.getD 0

/-- Embeds core/actions.py, requires_battery. -/
def requires_battery (action : Action) : Int :=
  (ACTION_PROPERTIES action).requires_battery.getD 0

/-- Embeds core/constraints.py, is_action_allowed: the hard-rule safety
check, returning (allowed, reason). -/
def is_action_allowed (action : Action) (state : RobotState) : Bool × String :=
  -- Constraint 1: cannot help if battery is depleted
  if action = Action.HELP_USER ∧ state.is_battery_depleted = true then
    (false, "Cannot help user: battery depleted")
  -- Constraint 2: cannot help if battery is below minimum threshold
  else if action = Action.HELP_USER ∧ state.battery < 10 then
    (false, "Cannot help user: battery too low (need 10%)")
  -- Constraint 4: cannot wait if urgency is critical AND battery allows helping
  else if action = Action.WAIT ∧ state.user_urgency ≥ 3 ∧ state.battery ≥ 15 then
    (false, "Cannot wait: user urgency is critical and we can help")
  -- Constraint 5: cannot recharge if already fully charged
  else if action = Action.RECHARGE ∧ state.battery ≥ 95 then
    (false, "Already fully charged")
  else
    (true, "Action allowed")

/-- Embeds core/constraints.py, get_constraint_warnings: advisory warnings,
accumulated in source order. -/
def get_constraint_warnings (action : Action) (state : RobotState) : List String :=
  (if action = Action.HELP_USER ∧ state.is_battery_critical = true then
    ["WARNING: Helping with critically low battery (risk of depletion)"]
  else []) ++
  (if action = Action.RECHARGE ∧ state.has_urgent_user = true then
    ["WARNING: Recharging while user needs urgent help"]
  else []) ++
  (if action = Action.WAIT ∧ state.user_urgency ≥ 2 then
    ["WARNING: Waiting while user urgency is high"]
  else [])

/-- Transcription of claim C3: the blocking rules exactly as the spec
enumerates them, first matching rule wins, with the spec's reason strings.
This definition follows the words of the specification, to be compared
with is_action_allowed, which follows the source. -/
def is_action_allowed_spec (action : Action) (state : RobotState) : Bool × String :=
  if action = Action.HELP_USER ∧ state.battery ≤ 0 then
    (false, "Cannot help user: battery depleted")
  else if action = Action.HELP_USER ∧ state.battery < 10 then
    (false, "Cannot help user: battery too low (need 10%)")
  else if action = Action.WAIT ∧ state.user_urgency ≥ 3 ∧ state.battery ≥ 15 then
    (false, "Cannot wait: user urgency is critical and we can help")
  else if action = Action.RECHARGE ∧ state.battery ≥ 95 then
    (false, "Already fully charged")
  else
    (true, "Action allowed")

/-- Embeds core/simulator.py history entries: dicts with keys step, action,
state, result.  The Python code stores str(self.state) under the state key;
since no property depends on the textual rendering, the snapshot itself is
stored here in its place. -/
structure HistoryEntry where
  step : Int
  action : Action
  state_snapshot : RobotState
  result : String
deriving DecidableEq, Repr

/-- Embeds core/simulator.py, class RobotSimulator (its attributes). -/
structure RobotSimulator where
  state : RobotState
  max_steps : Int := 10
  history : List HistoryEntry := []
  scenario_ended : Bool := false
deriving DecidableEq, Repr

/-- Embeds RobotSimulator._apply_help_user.  The [] accesses on the props
dict are the fallible part (Option bind). -/
def apply_help_user (st : RobotState) (props : ActionProps) :
    Option (RobotState × ActionResult) :=
  props.battery_cost.bind (fun bc =>
    let st1 := { st with battery := st.battery - bc }
    props.urgency_reduction.map (fun ur =>
      let old_urgency := st1.user_urgency
      let st2 := { st1 with user_urgency := max 0 (st1.user_urgency - ur),
                            current_task := "helping" }
      let message :=
        if st2.user_urgency = 0 then
          "Helped user successfully! (urgency " ++ toString old_urgency ++ "->0)"
        else
          "Helped user (urgency " ++ toString old_urgency ++ "->"
            ++ toString st2.user_urgency ++ ")"
      (st2, { success := true, message := message,
              battery_change := -bc, urgency_change := -ur })))

/-- Embeds RobotSimulator._apply_recharge (deterministic variant: urgency
untouched). -/
def apply_recharge (st : RobotState) (props : ActionProps) :
    Option (RobotState × ActionResult) :=
  props.battery_gain.map (fun bg =>
    let old_battery := st.battery
    let st1 := { st with battery := st.battery + bg,
                         current_task := "navigating" }
    let message := "Recharged battery (" ++ toString old_battery ++ "->"
      ++ toString st1.battery ++ "%)"
    (st1, { success := true, message := message, battery_change := bg }))

/-- Embeds RobotSimulator._apply_wait (deterministic variant: urgency always
increases when below 3). -/
def apply_wait (st : RobotState) (props : ActionProps) :
    Option (RobotState × ActionResult) :=
  props.battery_cost.map (fun bc =>
    let st1 := { st with battery := st.battery - bc }
    let urgency_increased := st1.user_urgency < 3
    let st2 :=
      if st1.user_urgency < 3 then
        { st1 with user_urgency := st1.user_urgency + 1 }
      else st1
    let st3 := { st2 with current_task := "idle" }
    let message :=
      if urgency_increased then
        "Waited and observed" ++ " [User urgency increased to "
          ++ toString st3.user_urgency ++ "!]"
      else "Waited and observed"
    (st3, { success := true, message := message, battery_change := -bc }))

/-- Embeds RobotSimulator._apply_call_for_help. -/
def apply_call_for_help (st : RobotState) (props : ActionProps) :
    Option (RobotState × ActionResult) :=
  props.battery_cost.map (fun bc =>
    let st1 := { st with battery := st.battery - bc, current_task := "idle" }
    (st1, { success := true,
            message := "Called for human assistance (scenario ended)",
            battery_change := -bc }))

/-- Embeds RobotSimulator.apply_action: dispatch on the action, advance
time, clamp battery and urgency, detect end conditions, append history.
Returns the updated simulator together with the ActionResult. -/
def apply_action (sim : RobotSimulator) (action : Action) :
    Option (RobotSimulator × ActionResult) :=
  let props := ACTION_PROPERTIES action
  let effect :=
    match action with
    | Action.HELP_USER => apply_help_user sim.state props
    | Action.RECHARGE => apply_recharge sim.state props
    | Action.WAIT => apply_wait sim.state props
    | Action.CALL_FOR_HELP => apply_call_for_help sim.state props
  effect.map (fun pr =>
    let st1 := pr.1
    let result := pr.2
    -- update time: props.get with default 1
    let st2 := { st1 with time_step := st1.time_step + props.time_cost.getD 1 }
    -- clamp values
    let st3 := { st2 with battery := max 0 (min 100 st2.battery),
                          user_urgency := max 0 (min 3 st2.user_urgency) }
    -- end conditions: ends_scenario via props.get with default false
    let ended1 := if props.ends_scenario.getD false then true else sim.scenario_ended
    let time_up := st3.time_step ≥ sim.max_steps
    let ended2 := if time_up then true else ended1
    let result2 :=
      if time_up then
        { result with message := result.message ++ " [TIME LIMIT REACHED]" }
      else result
    let entry : HistoryEntry :=
      { step := st3.time_step, action := action,
        state_snapshot := st3, result := result2.message }
    ({ state := st3, max_steps := sim.max_steps,
       history := sim.history ++ [entry], scenario_ended := ended2 }, result2))

/-- Embeds RobotSimulator.get_summary (dict modelled as a structure). -/
structure Summary where
  total_steps : Int
  final_battery : Int
  final_urgency : Int
  user_helped : Bool
  battery_depleted : Bool
deriving DecidableEq, Repr

/-- Embeds RobotSimulator.get_summary. -/
def get_summary (sim : RobotSimulator) : Summary :=
  { total_steps := sim.state.time_step,
    final_battery := sim.state.battery,
    final_urgency := sim.state.user_urgency,
    user_helped := decide (sim.state.user_urgency = 0),
    battery_depleted := sim.state.is_battery_depleted }

/-- Python list subscription lst[i] on an int index: a negative index counts
from the end; an index out of range raises (none). -/
def pyIndex (l : List Rat) (i : Int) : Option Rat :=
  let j := if i < 0 then i + l.length else i
  if 0 ≤ j then l.get? j.toNat else none

/-- Embeds solutions/solution_scoring.py, score_safety (total). -/
def score_safety (action : Action) (s : RobotState) : Rat :=
  match action with
  | Action.HELP_USER =>
    if s.battery < 10 then 50 - 100
    else if s.battery < 20 then 50 - 60
    else if s.battery < 30 then 50 - 30
    else if s.battery < 45 then 50 - 10
    else 50 + 20
  | Action.RECHARGE =>
    if s.battery < 20 then 50 + 80
    else if s.battery < 35 then 50 + 60
    else if s.battery < 50 then 50 + 40
    else if s.battery < 70 then 50 + 15
    else 50 - 10
  | Action.WAIT =>
    if s.battery > 50 then 50 + 10 else 50 - 30
  | Action.CALL_FOR_HELP => 50 + 20

/-- The urgency multiplier table of score_helpfulness. -/
def urgency_weight : List Rat := [0, 1.5, 3.0, 5.0]

/-- Embeds solutions/solution_scoring.py, score_helpfulness.  The HELP_USER
branch subscripts urgency_weight with the urgency level, the one fallible
operation of the scoring layer. -/
def score_helpfulness (action : Action) (s : RobotState) : Option Rat :=
  match action with
  | Action.HELP_USER =>
    (pyIndex urgency_weight s.user_urgency).map (fun w =>
      let score := 100 * w
      let score :=
        if s.battery > 45 then score + 40
        else if s.battery > 30 then score + 20
        else score
      if s.user_urgency ≥ 3 then score + 80
      else if s.user_urgency ≥ 2 then score + 40
      else score)
  | Action.RECHARGE =>
    let score : Rat := 40
    let score :=
      if s.user_urgency ≥ 3 then score - 100
      else if s.user_urgency ≥ 2 then score - 60
      else if s.user_urgency = 1 then score - 20
      else score
    some (if s.battery < 15 then score + 80
          else if s.battery < 25 then score + 60
          else if s.battery < 40 then score + 35
          else score)
  | Action.WAIT =>
    some (if s.user_urgency = 0 then 20
          else if s.user_urgency = 1 then -25
          else if s.user_urgency = 2 then -70
          else -100)
  | Action.CALL_FOR_HELP =>
    some (if s.user_urgency ≥ 2 then 40 else -40)

/-- Embeds solutions/solution_scoring.py, score_efficiency (total). -/
def score_efficiency (action : Action) (s : RobotState) : Rat :=
  match action with
  | Action.HELP_USER =>
    let score : Rat := 50
    let score := if s.user_urgency > 0 then score + 30 else score - 20
    let battery_cost := get_battery_cost Action.HELP_USER
    if s.battery - battery_cost < 20 then score - 25 else score
  | Action.RECHARGE =>
    if s.battery < 30 then 50 + 40
    else if s.battery < 50 then 50 + 20
    else if s.battery < 70 then 50 - 10
    else 50 - 40
  | Action.WAIT =>
    let score : Rat := 50 - 20
    if s.battery < 15 ∧ s.user_urgency = 0 then score + 30 else score
  | Action.CALL_FOR_HELP =>
    let score : Rat := 50 - 40
    if s.battery < 10 ∨ (s.battery < 20 ∧ s.user_urgency ≥ 2) then score + 50
    else score

/-- Embeds solutions/solution_scoring.py, score_action: the three dimension
scores combined under context-dependent weights. -/
def score_action (action : Action) (s : RobotState) : Option Rat :=
  (score_helpfulness action s).map (fun helpfulness =>
    let safety := score_safety action s
    let efficiency := score_efficiency action s
    let weights : Rat × Rat × Rat :=
      if s.user_urgency ≥ 3 then (0.20, 0.70, 0.10)
      else if s.user_urgency ≥ 2 then (0.25, 0.60, 0.15)
      else if s.battery < 20 then (0.70, 0.20, 0.10)
      else if s.battery < 35 then (0.55, 0.30, 0.15)
      else (0.25, 0.55, 0.20)
    safety * weights.1 + helpfulness * weights.2.1 + efficiency * weights.2.2)

/-- The best-action selection loop of choose_by_scoring.  The accumulator
mirrors the Python locals: best_action starts as None, best_score starts as
float negative infinity (modelled as none, which every finite score exceeds
and no finite score equals). -/
def scoreFold (s : RobotState) :
    List Action → Option Action → Option Rat → Option (Option Action × Option Rat)
  | [], best_action, best_score => some (best_action, best_score)
  | a :: rest, best_action, best_score =>
    (score_action a s).bind (fun score =>
      let score_eq : Bool :=
        match best_score with
        | none => false
        | some b => decide (score = b)
      let score_gt : Bool :=
        match best_score with
        | none => true
        | some b => decide (b < score)
      -- tiebreaker: prefer helping over waiting
      let best_action1 :=
        if score_eq = true ∧ a = Action.HELP_USER then some a else best_action
      if score_gt = true then scoreFold s rest (some a) (some score)
      else scoreFold s rest best_action1 best_score)

/-- Embeds solutions/solution_decision.py, choose_by_scoring.  The outer
Option is the exception layer; the Python function would return None if the
loop never set best_action, which the same none also covers. -/
def choose_by_scoring (s : RobotState) : Option Action :=
  let valid_actions := allActions.filter (fun a => (is_action_allowed a s).1)
  -- if no valid actions, call for help
  if valid_actions = [] then some Action.CALL_FOR_HELP
  else (scoreFold s valid_actions none none).bind (fun pr => pr.1)

/-- Embeds solutions/solution_decision.py, choose_action: the ordered
strategic rules, falling through to choose_by_scoring. -/
def choose_action (s : RobotState) : Option Action :=
  -- Rule 1: critical urgency (3)
  if s.user_urgency ≥ 3 then
    if s.battery ≥ 15 then some Action.HELP_USER
    else if s.battery ≥ 10 then some Action.HELP_USER
    else some Action.CALL_FOR_HELP
  -- Rule 2: battery critically low (<10%)
  else if s.battery < 10 then
    if s.user_urgency ≥ 2 then some Action.CALL_FOR_HELP
    else some Action.RECHARGE
  -- Rule 3: battery very low (10-25%)
  else if s.battery < 25 then
    if s.user_urgency ≥ 2 then some Action.HELP_USER
    else some Action.RECHARGE
  -- Rule 4: high urgency (2+) with good battery (25%+)
  else if s.user_urgency ≥ 2 ∧ s.battery ≥ 25 then some Action.HELP_USER
  -- Rule 5: medium battery (25-45%) with any urgency
  else if 25 ≤ s.battery ∧ s.battery < 45 ∧ s.user_urgency ≥ 1 then
    some Action.HELP_USER
  -- Rule 6: low battery (<45%) with low urgency
  else if s.battery < 45 ∧ s.user_urgency ≤ 1 then some Action.RECHARGE
  -- Rule 7: any urgency (1+) with good battery (45%+)
  else if s.user_urgency ≥ 1 ∧ s.battery ≥ 45 then some Action.HELP_USER
  -- non-critical situations: scoring-based decision
  else choose_by_scoring s

/-- Sample simulator used by witness instantiations. -/
def sampleSim : RobotSimulator :=
  { state := { battery := 40, user_urgency := 1 } }

/-- C3: is_action_allowed blocks exactly the four rule combinations the
spec enumerates, returning the first matching rule's reason, and allows
everything else: the source function coincides with the spec-side
transcription on every action and state. -/
theorem is_action_allowed_matches_spec (a : Action) (s : RobotState) :
    is_action_allowed a s = is_action_allowed_spec a s := by
  cases a <;>
    simp [is_action_allowed, is_action_allowed_spec,
          RobotState.is_battery_depleted]

/-- C8: is_action_allowed and get_constraint_warnings are pure functions of
the (action, state) pair: two calls with the same arguments return
identical results, and the state is not part of either output, so neither
call can modify it. -/
theorem constraint_queries_idempotent (a : Action) (s : RobotState) :
    is_action_allowed a s = is_action_allowed a s ∧
    get_constraint_warnings a s = get_constraint_warnings a s :=
  ⟨rfl, rfl⟩

/-- C1: apply_action always succeeds, and the post-state has battery
clamped into [0, 100] and urgency clamped into [0, 3], for every input
simulator state (in range or not) and every action. -/
theorem apply_action_clamps (sim : RobotSimulator) (a : Action) :
    ∃ p, apply_action sim a = some p ∧
      0 ≤ p.1.state.battery ∧ p.1.state.battery ≤ 100 ∧
      0 ≤ p.1.state.user_urgency ∧ p.1.state.user_urgency ≤ 3 := by
  cases a <;>
    refine ⟨_, rfl, ?_, ?_, ?_, ?_⟩ <;>
    simp [apply_action, apply_help_user, apply_recharge, apply_wait,
          apply_call_for_help, ACTION_PROPERTIES]

/-- C5: when RECHARGE is allowed (battery below 95) on an in-range state,
apply_action sets battery to min 100 (battery + 50) and leaves the user
urgency unchanged. -/
theorem recharge_deterministic (sim : RobotSimulator)
    (hb0 : 0 ≤ sim.state.battery) (hb1 : sim.state.battery ≤ 100)
    (hu0 : 0 ≤ sim.state.user_urgency) (hu1 : sim.state.user_urgency ≤ 3)
    (hallow : sim.state.battery < 95) :
    ∃ p, apply_action sim Action.RECHARGE = some p ∧
      p.1.state.battery = min 100 (sim.state.battery + 50) ∧
      p.1.state.user_urgency = sim.state.user_urgency := by
  refine ⟨_, rfl, ?_, ?_⟩ <;>
    simp [apply_action, apply_recharge, ACTION_PROPERTIES] <;>
    omega

/-- Witness for C5 at battery 40, urgency 1. -/
theorem recharge_deterministic_witness :
    ((0:Int) ≤ sampleSim.state.battery ∧ sampleSim.state.battery ≤ 100 ∧
      0 ≤ sampleSim.state.user_urgency ∧ sampleSim.state.user_urgency ≤ 3 ∧
      sampleSim.state.battery < 95) ∧
    ∃ p, apply_action sampleSim Action.RECHARGE = some p ∧
      p.1.state.battery = min 100 (sampleSim.state.battery + 50) ∧
      p.1.state.user_urgency = sampleSim.state.user_urgency :=
  ⟨⟨by decide, by decide, by decide, by decide, by decide⟩,
    recharge_deterministic sampleSim (by decide) (by decide) (by decide)
      (by decide) (by decide)⟩

/-- C6: apply_action on WAIT subtracts 2 from the battery before the final
clamp, raises urgency by exactly one when it was below 3, and leaves it at
3 when it was already 3, for every state with in-range urgency. -/
theorem wait_deterministic (sim : RobotSimulator)
    (hu0 : 0 ≤ sim.state.user_urgency) (hu1 : sim.state.user_urgency ≤ 3) :
    ∃ p, apply_action sim Action.WAIT = some p ∧
      p.1.state.battery = max 0 (min 100 (sim.state.battery - 2)) ∧
      (sim.state.user_urgency < 3 →
        p.1.state.user_urgency = sim.state.user_urgency + 1) ∧
      (sim.state.user_urgency = 3 → p.1.state.user_urgency = 3) := by
  refine ⟨_, rfl, ?_, ?_, ?_⟩ <;>
    simp [apply_action, apply_wait, ACTION_PROPERTIES] <;>
    split <;>
    simp <;>
    omega

/-- Witness for C6 at battery 40, urgency 1. -/
theorem wait_deterministic_witness :
    ((0:Int) ≤ sampleSim.state.user_urgency ∧
      sampleSim.state.user_urgency ≤ 3) ∧
    ∃ p, apply_action sampleSim Action.WAIT = some p ∧
      p.1.state.battery = max 0 (min 100 (sampleSim.state.battery - 2)) ∧
      (sampleSim.state.user_urgency < 3 →
        p.1.state.user_urgency = sampleSim.state.user_urgency + 1) ∧
      (sampleSim.state.user_urgency = 3 → p.1.state.user_urgency = 3) :=
  ⟨⟨by decide, by decide⟩,
    wait_deterministic sampleSim (by decide) (by decide)⟩

/-- C7: apply_action on CALL_FOR_HELP always sets the scenario_ended flag,
whatever the prior state or prior value of the flag, and the battery drops
by 5 before the final clamp. -/
theorem call_for_help_ends_scenario (sim : RobotSimulator) :
    ∃ p, apply_action sim Action.CALL_FOR_HELP = some p ∧
      p.1.scenario_ended = true ∧
      p.1.state.battery = max 0 (min 100 (sim.state.battery - 5)) := by
  refine ⟨_, rfl, ?_, ?_⟩ <;>
    simp [apply_action, apply_call_for_help, ACTION_PROPERTIES]

/-- CALL_FOR_HELP matches none of the hard rules: it is allowed in every
state. -/
lemma allowed_call_for_help (s : RobotState) :
    (is_action_allowed Action.CALL_FOR_HELP s).1 = true := by
  simp [is_action_allowed]

/-- HELP_USER is allowed whenever the battery is at least 10. -/
lemma allowed_help_user (s : RobotState) (h : 10 ≤ s.battery) :
    (is_action_allowed Action.HELP_USER s).1 = true := by
  unfold is_action_allowed
  split_ifs with h1 h2 h3 h4 <;>
    simp_all [RobotState.is_battery_depleted] <;>
    omega

/-- RECHARGE is allowed whenever the battery is below 95. -/
lemma allowed_recharge (s : RobotState) (h : s.battery < 95) :
    (is_action_allowed Action.RECHARGE s).1 = true := by
  unfold is_action_allowed
  split_ifs with h1 h2 h3 h4 <;>
    simp_all [RobotState.is_battery_depleted]
  omega

/-- With in-range urgency the urgency-weight subscript is in bounds, so
score_helpfulness returns a value for every action. -/
lemma score_helpfulness_isSome (a : Action) (s : RobotState)
    (hu0 : 0 ≤ s.user_urgency) (hu1 : s.user_urgency ≤ 3) :
    (score_helpfulness a s).isSome = true := by
  obtain ⟨b, u, ct, du, dc, tp, ts⟩ := s
  cases a
  case HELP_USER =>
    simp only [RobotState.user_urgency] at hu0 hu1
    interval_cases u <;> simp [score_helpfulness, pyIndex, urgency_weight]
  all_goals simp [score_helpfulness]

/-- score_action returns a value for every action on in-range urgency. -/
lemma score_action_isSome (a : Action) (s : RobotState)
    (hu0 : 0 ≤ s.user_urgency) (hu1 : s.user_urgency ≤ 3) :
    (score_action a s).isSome = true := by
  obtain ⟨v, hv⟩ :=
    Option.isSome_iff_exists.mp (score_helpfulness_isSome a s hu0 hu1)
  simp [score_action, hv]

/-- The selection loop of choose_by_scoring: if every candidate scores, the
loop terminates without an exception and the final best action is either
the initial accumulator or a member of the candidate list. -/
lemma scoreFold_sound (s : RobotState) :
    ∀ (l : List Action) (ba : Option Action) (bs : Option Rat),
      (∀ x ∈ l, (score_action x s).isSome = true) →
      ∃ ba2 bs2, scoreFold s l ba bs = some (ba2, bs2) ∧
        (ba2 = ba ∨ ∃ x ∈ l, ba2 = some x) := by
  intro l
  induction l with
  | nil =>
    intro ba bs _
    exact ⟨ba, bs, rfl, Or.inl rfl⟩
  | cons a rest ih =>
    intro ba bs hall
    obtain ⟨sc, hsc⟩ :=
      Option.isSome_iff_exists.mp (hall a (List.mem_cons_self a rest))
    have hrest : ∀ x ∈ rest, (score_action x s).isSome = true :=
      fun x hx => hall x (List.mem_cons_of_mem _ hx)
    cases bs with
    | none =>
      -- negative infinity: the first score always wins
      have hred : scoreFold s (a :: rest) ba none =
          scoreFold s rest (some a) (some sc) := by
        simp [scoreFold, hsc]
      rw [hred]
      obtain ⟨ba2, bs2, heq, hcase⟩ := ih (some a) (some sc) hrest
      refine ⟨ba2, bs2, heq, Or.inr ?_⟩
      rcases hcase with he | ⟨x, hx, he⟩
      · exact ⟨a, List.mem_cons_self a rest, he⟩
      · exact ⟨x, List.mem_cons_of_mem _ hx, he⟩
    | some b =>
      by_cases hgt : b < sc
      · have hred : scoreFold s (a :: rest) ba (some b) =
            scoreFold s rest (some a) (some sc) := by
          simp [scoreFold, hsc, hgt]
        rw [hred]
        obtain ⟨ba2, bs2, heq, hcase⟩ := ih (some a) (some sc) hrest
        refine ⟨ba2, bs2, heq, Or.inr ?_⟩
        rcases hcase with he | ⟨x, hx, he⟩
        · exact ⟨a, List.mem_cons_self a rest, he⟩
        · exact ⟨x, List.mem_cons_of_mem _ hx, he⟩
      · by_cases heq2 : sc = b ∧ a = Action.HELP_USER
        · -- tie against the current best: the tiebreaker picks HELP_USER
          obtain ⟨hscb, haH⟩ := heq2
          subst haH
          subst hscb
          have hred : scoreFold s (Action.HELP_USER :: rest) ba (some sc) =
              scoreFold s rest (some Action.HELP_USER) (some sc) := by
            simp [scoreFold, hsc]
          rw [hred]
          obtain ⟨ba2, bs2, heq, hcase⟩ := ih (some Action.HELP_USER) (some sc) hrest
          refine ⟨ba2, bs2, heq, ?_⟩
          rcases hcase with he | ⟨x, hx, he⟩
          · exact Or.inr ⟨Action.HELP_USER, List.mem_cons_self _ rest, he⟩
          · exact Or.inr ⟨x, List.mem_cons_of_mem _ hx, he⟩
        · have hcond : ¬(decide (sc = b) = true ∧ a = Action.HELP_USER) := by
            simpa [decide_eq_true_eq] using heq2
          have hred : scoreFold s (a :: rest) ba (some b) =
              scoreFold s rest ba (some b) := by
            simp only [scoreFold, hsc, Option.some_bind]
            rw [if_neg hcond, if_neg (by simpa [decide_eq_true_eq] using hgt)]
          rw [hred]
          obtain ⟨ba2, bs2, heq, hcase⟩ := ih ba (some b) hrest
          refine ⟨ba2, bs2, heq, ?_⟩
          rcases hcase with he | ⟨x, hx, he⟩
          · exact Or.inl he
          · exact Or.inr ⟨x, List.mem_cons_of_mem _ hx, he⟩

/-- Started on a nonempty candidate list with the Python initial values
(best_action None, best_score negative infinity), the loop always produces
a best action, and it is one of the candidates: the first candidate always
beats negative infinity. -/
lemma scoreFold_head (s : RobotState) (a : Action) (rest : List Action)
    (hall : ∀ x ∈ a :: rest, (score_action x s).isSome = true) :
    ∃ x bs2, scoreFold s (a :: rest) none none = some (some x, bs2) ∧
      x ∈ a :: rest := by
  obtain ⟨sc, hsc⟩ :=
    Option.isSome_iff_exists.mp (hall a (List.mem_cons_self a rest))
  have hrest : ∀ x ∈ rest, (score_action x s).isSome = true :=
    fun x hx => hall x (List.mem_cons_of_mem _ hx)
  have hred : scoreFold s (a :: rest) none none =
      scoreFold s rest (some a) (some sc) := by
    simp [scoreFold, hsc]
  obtain ⟨ba2, bs2, heq, hcase⟩ := scoreFold_sound s rest (some a) (some sc) hrest
  rcases hcase with he | ⟨x, hx, he⟩
  · exact ⟨a, bs2, by rw [hred, heq, he], List.mem_cons_self a rest⟩
  · exact ⟨x, bs2, by rw [hred, heq, he], List.mem_cons_of_mem _ hx⟩

/-- choose_by_scoring always returns an action that is allowed in the
state it was given, for any in-range urgency. -/
lemma choose_by_scoring_allowed (s : RobotState)
    (hu0 : 0 ≤ s.user_urgency) (hu1 : s.user_urgency ≤ 3) :
    ∃ a, choose_by_scoring s = some a ∧ (is_action_allowed a s).1 = true := by
  have hCall : Action.CALL_FOR_HELP ∈
      allActions.filter (fun a => (is_action_allowed a s).1) :=
    List.mem_filter.mpr ⟨by simp [allActions], allowed_call_for_help s⟩
  cases hv : allActions.filter (fun a => (is_action_allowed a s).1) with
  | nil =>
    rw [hv] at hCall
    simp at hCall
  | cons a rest =>
    have hall : ∀ x ∈ a :: rest, (score_action x s).isSome = true :=
      fun x _ => score_action_isSome x s hu0 hu1
    obtain ⟨x, bs2, heq, hmem⟩ := scoreFold_head s a rest hall
    refine ⟨x, ?_, ?_⟩
    · simp only [choose_by_scoring]
      rw [hv, heq]
      simp
    · rw [← hv] at hmem
      exact (List.mem_filter.mp hmem).2

/-- The decision layer always emits an action, the emitted action passes
is_action_allowed in the same state, and HELP_USER is never emitted below
battery 10.  Only the urgency needs to be in range. -/
lemma choose_action_allowed (s : RobotState)
    (hu0 : 0 ≤ s.user_urgency) (hu1 : s.user_urgency ≤ 3) :
    ∃ a, choose_action s = some a ∧ (is_action_allowed a s).1 = true ∧
      (s.battery < 10 → a ≠ Action.HELP_USER) := by
  unfold choose_action
  split_ifs <;>
    first
      | exact ⟨_, rfl, allowed_call_for_help s, fun _ => by decide⟩
      | exact ⟨_, rfl, allowed_help_user s (by omega),
          fun hb => absurd hb (by omega)⟩
      | exact ⟨_, rfl, allowed_recharge s (by omega), fun _ => by decide⟩
      | (obtain ⟨a, ha, hal⟩ := choose_by_scoring_allowed s hu0 hu1
         exact ⟨a, ha, hal, fun hb => absurd hb (by omega)⟩)

/-- Sample state used by witness instantiations: the spec scenario with
battery 50 and urgency 1. -/
def sampleState : RobotState := { battery := 50, user_urgency := 1 }

/-- Sample state used by witness instantiations: the spec scenario with
battery 80 and critical urgency 3. -/
def criticalState : RobotState := { battery := 80, user_urgency := 3 }

/-- C2: on the documented domain, choose_action returns an action that
is_action_allowed permits in the very same state, and in particular never
returns HELP_USER when the battery is below 10. -/
theorem choose_action_respects_constraints (s : RobotState)
    (_hb0 : 0 ≤ s.battery) (_hb1 : s.battery ≤ 100)
    (hu0 : 0 ≤ s.user_urgency) (hu1 : s.user_urgency ≤ 3) :
    ∃ a, choose_action s = some a ∧ (is_action_allowed a s).1 = true ∧
      (s.battery < 10 → a ≠ Action.HELP_USER) :=
  choose_action_allowed s hu0 hu1

/-- Witness for C2 at the spec scenario battery 50, urgency 1. -/
theorem choose_action_respects_constraints_witness :
    ((0:Int) ≤ sampleState.battery ∧ sampleState.battery ≤ 100 ∧
      0 ≤ sampleState.user_urgency ∧ sampleState.user_urgency ≤ 3) ∧
    ∃ a, choose_action sampleState = some a ∧
      (is_action_allowed a sampleState).1 = true ∧
      (sampleState.battery < 10 → a ≠ Action.HELP_USER) :=
  ⟨⟨by decide, by decide, by decide, by decide⟩,
    choose_action_respects_constraints sampleState
      (by decide) (by decide) (by decide) (by decide)⟩

/-- C4: with critical urgency (at least 3) the strategic fast path decides
without scoring: HELP_USER whenever the battery is at least 10, otherwise
CALL_FOR_HELP. -/
theorem strategic_fast_path_critical (s : RobotState)
    (h : s.user_urgency ≥ 3) :
    (s.battery ≥ 10 → choose_action s = some Action.HELP_USER) ∧
    (s.battery < 10 → choose_action s = some Action.CALL_FOR_HELP) := by
  unfold choose_action
  rw [if_pos h]
  constructor <;> intro hb <;> split_ifs <;> first | rfl | omega

/-- Witness for C4 at battery 80, urgency 3: HELP_USER on the first call. -/
theorem strategic_fast_path_critical_witness :
    criticalState.user_urgency ≥ 3 ∧ criticalState.battery ≥ 10 ∧
    choose_action criticalState = some Action.HELP_USER :=
  ⟨by decide, by decide,
    (strategic_fast_path_critical criticalState (by decide)).1 (by decide)⟩

/-- C9: on the documented domain (battery in [0,100], urgency in [0,3])
the scoring functions and the decision function are total: the urgency
weight subscript is in bounds, score_helpfulness and score_action return a
value for every catalog action, and choose_action returns an action. -/
theorem scoring_and_decision_total (a : Action) (s : RobotState)
    (_hb0 : 0 ≤ s.battery) (_hb1 : s.battery ≤ 100)
    (hu0 : 0 ≤ s.user_urgency) (hu1 : s.user_urgency ≤ 3) :
    (score_helpfulness a s).isSome = true ∧
    (score_action a s).isSome = true ∧
    (choose_action s).isSome = true := by
  refine ⟨score_helpfulness_isSome a s hu0 hu1,
    score_action_isSome a s hu0 hu1, ?_⟩
  obtain ⟨x, hx, -, -⟩ := choose_action_allowed s hu0 hu1
  simp [hx]

/-- Witness for C9 at HELP_USER, battery 50, urgency 1. -/
theorem scoring_and_decision_total_witness :
    ((0:Int) ≤ sampleState.battery ∧ sampleState.battery ≤ 100 ∧
      0 ≤ sampleState.user_urgency ∧ sampleState.user_urgency ≤ 3) ∧
    (score_helpfulness Action.HELP_USER sampleState).isSome = true ∧
    (score_action Action.HELP_USER sampleState).isSome = true ∧
    (choose_action sampleState).isSome = true :=
  ⟨⟨by decide, by decide, by decide, by decide⟩,
    scoring_and_decision_total Action.HELP_USER sampleState
      (by decide) (by decide) (by decide) (by decide)⟩

/-- C10: CALL_FOR_HELP is allowed in every state whatsoever, hence the
filtered valid-action list of choose_by_scoring is never empty and the
no-valid-actions fallback branch is unreachable: choose_by_scoring always
takes the scoring branch. -/
theorem call_for_help_fallback_unreachable (s : RobotState) :
    (is_action_allowed Action.CALL_FOR_HELP s).1 = true ∧
    allActions.filter (fun a => (is_action_allowed a s).1) ≠ [] ∧
    choose_by_scoring s =
      (scoreFold s (allActions.filter (fun a => (is_action_allowed a s).1))
        none none).bind (fun pr => pr.1) := by
  have hCall : Action.CALL_FOR_HELP ∈
      allActions.filter (fun a => (is_action_allowed a s).1) :=
    List.mem_filter.mpr ⟨by simp [allActions], allowed_call_for_help s⟩
  have hne : allActions.filter (fun a => (is_action_allowed a s).1) ≠ [] := by
    intro h
    rw [h] at hCall
    simp at hCall
  refine ⟨allowed_call_for_help s, hne, ?_⟩
  simp only [choose_by_scoring]
  rw [if_neg hne]

end Robot
